import Mathlib

/-!
Verification of the Setapp device-disconnect client
(`src/disconnectSetappDevices.tsx`): the token store, the authenticated
request pipeline (both the inline `main/request` version and the
class-based `SetappClient.request`/`refreshToken` version), and the
device operations, shallowly embedded over an explicit transport
(a sequence of HTTP responses indexed by call order) and an explicit
pipeline state (persisted storage, trace of issued requests, call index).
-/

namespace Setapp

/-- A device as received from the remote service (`Device` interface). -/
structure Device where
  id : Nat
  name : String
deriving DecidableEq

/-- HTTP methods used by the client. -/
inductive Method
  | GET
  | POST
  | DELETE
deriving DecidableEq

/-- An outbound request descriptor: method, URL, body and the two headers
the pipeline manipulates (`Authorization`, `Accept`). -/
structure Req where
  method : Method
  url : String
  body : Option String
  authorization : Option String
  accept : Option String
deriving DecidableEq

/-- The JSON `data` field of a response body, as the client parses it:
either a token pair (refresh endpoint), a device list (devices endpoint),
or nothing of interest. -/
inductive RespBody
  | tokens (token refresh_token : String)
  | devices (ds : List Device)
  | empty
deriving DecidableEq

/-- An HTTP response: the transport's `ok` flag (2xx), the status code,
and the parsed body. -/
structure Resp where
  ok : Bool
  status : Nat
  body : RespBody
deriving DecidableEq

/-- Errors the client can fail with: `request` (non-2xx, non-401; carries
the failing URL), `parse` (body not of the expected shape), `aborted`
(cancellation observed). -/
inductive Err
  | request (url : String)
  | parse
  | aborted
deriving DecidableEq

/-- The persisted key-value storage: the two keys `Token` and
`RefreshToken`, each possibly absent. -/
structure Storage where
  token : Option String
  refreshToken : Option String
deriving DecidableEq

/-- The `TokenStore` configuration: the two defaults supplied at
construction. -/
structure TokenStore where
  defaultToken : String
  defaultRefreshToken : String
deriving DecidableEq

/-- `TokenStore.getToken`: the persisted access token if present, else the
configured default (`?? defaultToken`). -/
def TokenStore.getToken (ts : TokenStore) (st : Storage) : String :=
  st.token.getD ts.defaultToken

/-- `TokenStore.getRefreshToken`: the persisted refresh token if present,
else the configured default. -/
def TokenStore.getRefreshToken (ts : TokenStore) (st : Storage) : String :=
  st.refreshToken.getD ts.defaultRefreshToken

/-- `TokenStore.updateTokens`: persists both values under the two fixed
keys. -/
def TokenStore.updateTokens (_ts : TokenStore) (_st : Storage)
    (token refreshToken : String) : Storage :=
  { token := some token, refreshToken := some refreshToken }

/-- Equality of outcomes is decidable, so concrete runs can be checked by
evaluation. -/
instance {ε α : Type} [DecidableEq ε] [DecidableEq α] :
    DecidableEq (Except ε α) := fun a b =>
  match a, b with
  | Except.error x, Except.error y =>
    if h : x = y then isTrue (congrArg Except.error h)
    else isFalse (fun hh => h (Except.error.inj hh))
  | Except.error _, Except.ok _ => isFalse (fun hh => Except.noConfusion hh)
  | Except.ok _, Except.error _ => isFalse (fun hh => Except.noConfusion hh)
  | Except.ok x, Except.ok y =>
    if h : x = y then isTrue (congrArg Except.ok h)
    else isFalse (fun hh => h (Except.ok.inj hh))

/-- State threaded through the pipeline: the persisted storage, the trace
of requests actually handed to `fetch` (in order), and the index of the
next network call. -/
structure PState where
  storage : Storage
  calls : List Req
  nextIdx : Nat
deriving DecidableEq

/-- A transport behavior: the response the network gives to the n-th call. -/
abbrev Transport := Nat → Resp

def baseUrl : String := "https://user-api.setapp.com/v1"

def tokenUrl : String := baseUrl ++ "/token"

def devicesUrl : String := baseUrl ++ "/devices"

/-- The body `JSON.stringify(\x7b refresh_token \x7d)` of the refresh request. -/
def refreshBody (rt : String) : String :=
  "\x7b\"refresh_token\":\"" ++ rt ++ "\"\x7d"

/-- The header injection `new Request(req, \x7b headers: ... \x7d)`: replaces the
headers of a copy of the request with `Authorization: Bearer <token>` and
`Accept: application/json`, the token being read from the store now. -/
def decorate (ts : TokenStore) (st : Storage) (r : Req) : Req :=
  { r with authorization := some ("Bearer " ++ ts.getToken st),
           accept := some "application/json" }

/-- The refresh request: POST to the token endpoint with body
`\x7b refresh_token: <rt> \x7d` and no headers of its own. -/
def mkRefreshReq (rt : String) : Req :=
  { method := Method.POST, url := tokenUrl, body := some (refreshBody rt),
    authorization := none, accept := none }

/-- Whether the shared abort signal (fired just before call index `t` when
`ab = some t`) is observed by the call at index `i`. -/
def abortsAt (ab : Option Nat) (i : Nat) : Bool :=
  match ab with
  | some t => decide (t ≤ i)
  | none => false

/-- `AbortController.abort()` as called by `SetappClient.dispose`: fires
the shared signal; a second call has no further effect. The signal is
represented by the index of the first network call that observes it. -/
def dispose (ab : Option Nat) (now : Nat) : Option Nat :=
  match ab with
  | some t => some t
  | none => some now

/-- `SetappClient.request`, embedded with fuel (`none` = the recursion did
not finish within the fuel). One step: decorate the request with the
current token, hand it to `fetch` with the abort signal; on 2xx return the
response; on 401 run `refreshToken` (build the refresh request from the
current refresh token, send it through this same pipeline, parse the
token pair, persist it) and retry; otherwise fail with the URL. -/
def requestC (ts : TokenStore) (tr : Transport) (ab : Option Nat) :
    Nat → Req → PState → Option (Except Err Resp × PState)
  | 0, _, _ => none
  | fuel + 1, r, s =>
    if abortsAt ab s.nextIdx then some (Except.error Err.aborted, s)
    else if (tr s.nextIdx).ok then
      some (Except.ok (tr s.nextIdx),
        { s with calls := s.calls ++ [decorate ts s.storage r],
                 nextIdx := s.nextIdx + 1 })
    else if (tr s.nextIdx).status = 401 then
      match requestC ts tr ab fuel (mkRefreshReq (ts.getRefreshToken s.storage))
          { s with calls := s.calls ++ [decorate ts s.storage r],
                   nextIdx := s.nextIdx + 1 } with
      | none => none
      | some (Except.error e, s₂) => some (Except.error e, s₂)
      | some (Except.ok resp₂, s₂) =>
        match resp₂.body with
        | RespBody.tokens tk rtk =>
          requestC ts tr ab fuel (decorate ts s.storage r)
            { s₂ with storage := ts.updateTokens s₂.storage tk rtk }
        | RespBody.devices _ => some (Except.error Err.parse, s₂)
        | RespBody.empty => some (Except.error Err.parse, s₂)
    else
      some (Except.error (Err.request (decorate ts s.storage r).url),
        { s with calls := s.calls ++ [decorate ts s.storage r],
                 nextIdx := s.nextIdx + 1 })

/-- The inline `request` nested in `main`, embedded with fuel. Its `fetch`
carries no abort signal, and — because the `const req` holding the refresh
request shadows the parameter `req` — after a successful refresh it
resends the refresh request, not the original one. -/
def requestI (ts : TokenStore) (tr : Transport) :
    Nat → Req → PState → Option (Except Err Resp × PState)
  | 0, _, _ => none
  | fuel + 1, r, s =>
    if (tr s.nextIdx).ok then
      some (Except.ok (tr s.nextIdx),
        { s with calls := s.calls ++ [decorate ts s.storage r],
                 nextIdx := s.nextIdx + 1 })
    else if (tr s.nextIdx).status = 401 then
      match requestI ts tr fuel (mkRefreshReq (ts.getRefreshToken s.storage))
          { s with calls := s.calls ++ [decorate ts s.storage r],
                   nextIdx := s.nextIdx + 1 } with
      | none => none
      | some (Except.error e, s₂) => some (Except.error e, s₂)
      | some (Except.ok resp₂, s₂) =>
        match resp₂.body with
        | RespBody.tokens tk rtk =>
          requestI ts tr fuel (mkRefreshReq (ts.getRefreshToken s.storage))
            { s₂ with storage := ts.updateTokens s₂.storage tk rtk }
        | RespBody.devices _ => some (Except.error Err.parse, s₂)
        | RespBody.empty => some (Except.error Err.parse, s₂)
    else
      some (Except.error (Err.request (decorate ts s.storage r).url),
        { s with calls := s.calls ++ [decorate ts s.storage r],
                 nextIdx := s.nextIdx + 1 })

/-- The request sent by `fetchActiveDevices`: GET on the devices
collection. -/
def devicesReq : Req :=
  { method := Method.GET, url := devicesUrl, body := none,
    authorization := none, accept := none }

/-- The request sent by `disconnectDeviceById`: DELETE on the device
resource. -/
def deleteDeviceReq (did : Nat) : Req :=
  { method := Method.DELETE, url := devicesUrl ++ "/" ++ toString did,
    body := none, authorization := none, accept := none }

/-- `SetappClient.fetchActiveDevices`: GET the devices collection through
the pipeline and parse `data` as a device list. -/
def fetchActiveDevices (ts : TokenStore) (tr : Transport) (ab : Option Nat)
    (fuel : Nat) (s : PState) : Option (Except Err (List Device) × PState) :=
  match requestC ts tr ab fuel devicesReq s with
  | none => none
  | some (Except.error e, s') => some (Except.error e, s')
  | some (Except.ok resp, s') =>
    match resp.body with
    | RespBody.devices ds => some (Except.ok ds, s')
    | RespBody.tokens _ _ => some (Except.error Err.parse, s')
    | RespBody.empty => some (Except.error Err.parse, s')

/-- `SetappClient.disconnectDeviceById`: DELETE the device resource
through the pipeline; the response body is ignored. -/
def disconnectDeviceById (ts : TokenStore) (tr : Transport) (ab : Option Nat)
    (fuel : Nat) (did : Nat) (s : PState) :
    Option (Except Err Unit × PState) :=
  match requestC ts tr ab fuel (deleteDeviceReq did) s with
  | none => none
  | some (Except.error e, s') => some (Except.error e, s')
  | some (Except.ok _, s') => some (Except.ok (), s')

/-- A sequence of `updateTokens` calls applied in order, as the pipeline
performs them after successful refreshes. -/
def applyUpdates (ts : TokenStore) (st : Storage) :
    List (String × String) → Storage
  | [] => st
  | (a, r) :: rest => applyUpdates ts (ts.updateTokens st a r) rest

/-- The pipeline never terminates from this configuration: every fuel
bound is exhausted. -/
def divergesFrom (ts : TokenStore) (tr : Transport) (ab : Option Nat)
    (r : Req) (s : PState) : Prop :=
  ∀ fuel, requestC ts tr ab fuel r s = none

/-- The initial pipeline state: nothing persisted, no calls made. -/
def s0 : PState :=
  { storage := { token := none, refreshToken := none }, calls := [],
    nextIdx := 0 }

/-- A token store with the defaults used in the spec's concrete scenario. -/
def ts0 : TokenStore := { defaultToken := "t0", defaultRefreshToken := "r0" }

/-- The spec's concrete scenario transport: first call 401, refresh call
succeeds with the pair ("11", "22"), retried call succeeds with one
device. -/
def trScenario : Transport := fun i =>
  if i = 0 then { ok := false, status := 401, body := RespBody.empty }
  else if i = 1 then
    { ok := true, status := 200, body := RespBody.tokens "11" "22" }
  else
    { ok := true, status := 200,
      body := RespBody.devices [{ id := 123, name := "macOS" }] }

/-- A transport like the scenario one but whose refresh response carries
an empty token pair. -/
def trEmptyPair : Transport := fun i =>
  if i = 0 then { ok := false, status := 401, body := RespBody.empty }
  else if i = 1 then
    { ok := true, status := 200, body := RespBody.tokens "" "" }
  else
    { ok := true, status := 200,
      body := RespBody.devices [{ id := 123, name := "macOS" }] }

/-- A transport that answers 401 to every even call and success to every
odd call (so every refresh succeeds, yet every retried original is 401
again): no run of consecutive 401s is longer than one. -/
def trAlternating : Transport := fun i =>
  if i % 2 = 0 then { ok := false, status := 401, body := RespBody.empty }
  else { ok := true, status := 200, body := RespBody.tokens "t1" "r1" }

/-- A transport that answers 401 to every call. -/
def trAlways401 : Transport := fun _ =>
  { ok := false, status := 401, body := RespBody.empty }

/-- A transport that answers every call with a 2xx device-list response. -/
def trAllOk : Transport := fun _ =>
  { ok := true, status := 200,
    body := RespBody.devices [{ id := 123, name := "macOS" }] }

/-- A transport that answers every call with status 500. -/
def tr500 : Transport := fun _ =>
  { ok := false, status := 500, body := RespBody.empty }

/-- Taking exactly the length of the left list from an append returns the
left list. -/
theorem take_len_append {α : Type} (l₁ l₂ : List α) :
    (l₁ ++ l₂).take l₁.length = l₁ := by
  induction l₁ with
  | nil => simp
  | cons a t ih => simp [ih]

/-- A run of `updateTokens` calls splits along list append. -/
theorem applyUpdates_append (ts : TokenStore) (st : Storage)
    (l₁ l₂ : List (String × String)) :
    applyUpdates ts st (l₁ ++ l₂) =
      applyUpdates ts (applyUpdates ts st l₁) l₂ := by
  induction l₁ generalizing st with
  | nil => simp [applyUpdates]
  | cons p t ih =>
    cases p
    simp [applyUpdates, ih]

/-- Any finished pipeline run only appends to the call trace. -/
theorem requestC_calls_append (ts : TokenStore) (tr : Transport)
    (ab : Option Nat) :
    ∀ fuel r s res s', requestC ts tr ab fuel r s = some (res, s') →
      ∃ l, s'.calls = s.calls ++ l := by
  intro fuel
  induction fuel with
  | zero =>
    intro r s res s' h
    simp [requestC] at h
  | succ n ih =>
    intro r s res s' h
    rw [requestC] at h
    split at h
    · obtain ⟨rfl, rfl⟩ : Except.error Err.aborted = res ∧ s = s' := by
        simpa using h
      exact ⟨[], by simp⟩
    · split at h
      · obtain ⟨_, rfl⟩ :
            Except.ok (tr s.nextIdx) = res ∧
              ({ s with calls := s.calls ++ [decorate ts s.storage r],
                        nextIdx := s.nextIdx + 1 } : PState) = s' := by
          simpa using h
        exact ⟨[decorate ts s.storage r], rfl⟩
      · split at h
        · split at h
          · simp at h
          · rename_i e s₂ heq
            obtain ⟨rfl, rfl⟩ : Except.error e = res ∧ s₂ = s' := by
              simpa using h
            obtain ⟨l, hl⟩ := ih _ _ _ _ heq
            exact ⟨decorate ts s.storage r :: l, by simpa using hl⟩
          · rename_i resp₂ s₂ heq
            split at h
            · obtain ⟨l₁, hl₁⟩ := ih _ _ _ _ heq
              obtain ⟨l₂, hl₂⟩ := ih _ _ _ _ h
              refine ⟨decorate ts s.storage r :: (l₁ ++ l₂), ?_⟩
              simp only [PState.mk.injEq] at *
              simp [hl₂, hl₁]
            · obtain ⟨rfl, rfl⟩ : Except.error Err.parse = res ∧ s₂ = s' := by
                simpa using h
              obtain ⟨l, hl⟩ := ih _ _ _ _ heq
              exact ⟨decorate ts s.storage r :: l, by simpa using hl⟩
            · obtain ⟨rfl, rfl⟩ : Except.error Err.parse = res ∧ s₂ = s' := by
                simpa using h
              obtain ⟨l, hl⟩ := ih _ _ _ _ heq
              exact ⟨decorate ts s.storage r :: l, by simpa using hl⟩
        · obtain ⟨_, rfl⟩ :
              Except.error (Err.request (decorate ts s.storage r).url) = res ∧
                ({ s with calls := s.calls ++ [decorate ts s.storage r],
                          nextIdx := s.nextIdx + 1 } : PState) = s' := by
            simpa using h
          exact ⟨[decorate ts s.storage r], rfl⟩

/-- With no abort signal, a finished pipeline run makes at least one
network call: the call index strictly increases. -/
theorem requestC_nextIdx_lt (ts : TokenStore) (tr : Transport) :
    ∀ fuel r s res s', requestC ts tr none fuel r s = some (res, s') →
      s.nextIdx < s'.nextIdx := by
  intro fuel
  induction fuel with
  | zero =>
    intro r s res s' h
    simp [requestC] at h
  | succ n ih =>
    intro r s res s' h
    rw [requestC] at h
    split at h
    · rename_i hc
      simp [abortsAt] at hc
    · split at h
      · obtain ⟨_, rfl⟩ :
            Except.ok (tr s.nextIdx) = res ∧
              ({ s with calls := s.calls ++ [decorate ts s.storage r],
                        nextIdx := s.nextIdx + 1 } : PState) = s' := by
          simpa using h
        exact Nat.lt_succ_self _
      · split at h
        · split at h
          · simp at h
          · rename_i e s₂ heq
            obtain ⟨rfl, rfl⟩ : Except.error e = res ∧ s₂ = s' := by
              simpa using h
            have := ih _ _ _ _ heq
            simp only at this
            omega
          · rename_i resp₂ s₂ heq
            split at h
            · have h₁ := ih _ _ _ _ heq
              have h₂ := ih _ _ _ _ h
              simp only at h₁ h₂
              omega
            · obtain ⟨rfl, rfl⟩ : Except.error Err.parse = res ∧ s₂ = s' := by
                simpa using h
              have := ih _ _ _ _ heq
              simp only at this
              omega
            · obtain ⟨rfl, rfl⟩ : Except.error Err.parse = res ∧ s₂ = s' := by
                simpa using h
              have := ih _ _ _ _ heq
              simp only at this
              omega
        · obtain ⟨_, rfl⟩ :
              Except.error (Err.request (decorate ts s.storage r).url) = res ∧
                ({ s with calls := s.calls ++ [decorate ts s.storage r],
                          nextIdx := s.nextIdx + 1 } : PState) = s' := by
            simpa using h
          exact Nat.lt_succ_self _

/-- With no abort signal, the first network call of a finished pipeline
run is the input request decorated with the token read from the state the
run started in. -/
theorem requestC_first_call (ts : TokenStore) (tr : Transport)
    (fuel : Nat) (r : Req) (s : PState) (res : Except Err Resp) (s' : PState)
    (h : requestC ts tr none (fuel + 1) r s = some (res, s')) :
    ∃ l, s'.calls = s.calls ++ decorate ts s.storage r :: l := by
  rw [requestC] at h
  split at h
  · rename_i hc
    simp [abortsAt] at hc
  · split at h
    · obtain ⟨_, rfl⟩ :
          Except.ok (tr s.nextIdx) = res ∧
            ({ s with calls := s.calls ++ [decorate ts s.storage r],
                      nextIdx := s.nextIdx + 1 } : PState) = s' := by
        simpa using h
      exact ⟨[], rfl⟩
    · split at h
      · split at h
        · simp at h
        · rename_i e s₂ heq
          obtain ⟨rfl, rfl⟩ : Except.error e = res ∧ s₂ = s' := by
            simpa using h
          obtain ⟨l, hl⟩ := requestC_calls_append ts tr none _ _ _ _ _ heq
          exact ⟨l, by simpa using hl⟩
        · rename_i resp₂ s₂ heq
          split at h
          · obtain ⟨l₁, hl₁⟩ := requestC_calls_append ts tr none _ _ _ _ _ heq
            obtain ⟨l₂, hl₂⟩ := requestC_calls_append ts tr none _ _ _ _ _ h
            refine ⟨l₁ ++ l₂, ?_⟩
            simp only at hl₁ hl₂
            simp [hl₂, hl₁]
          · obtain ⟨rfl, rfl⟩ : Except.error Err.parse = res ∧ s₂ = s' := by
              simpa using h
            obtain ⟨l, hl⟩ := requestC_calls_append ts tr none _ _ _ _ _ heq
            exact ⟨l, by simpa using hl⟩
          · obtain ⟨rfl, rfl⟩ : Except.error Err.parse = res ∧ s₂ = s' := by
              simpa using h
            obtain ⟨l, hl⟩ := requestC_calls_append ts tr none _ _ _ _ _ heq
            exact ⟨l, by simpa using hl⟩
      · obtain ⟨_, rfl⟩ :
            Except.error (Err.request (decorate ts s.storage r).url) = res ∧
              ({ s with calls := s.calls ++ [decorate ts s.storage r],
                        nextIdx := s.nextIdx + 1 } : PState) = s' := by
          simpa using h
        exact ⟨[], rfl⟩

/-- Under an abort signal that fires before call index `t`, a finished
run either failed with the abortion error or made all its calls before
index `t`. -/
theorem requestC_abort_cases (ts : TokenStore) (tr : Transport) (t : Nat) :
    ∀ fuel r s res s', requestC ts tr (some t) fuel r s = some (res, s') →
      res = Except.error Err.aborted ∨ s'.nextIdx ≤ t := by
  intro fuel
  induction fuel with
  | zero =>
    intro r s res s' h
    simp [requestC] at h
  | succ n ih =>
    intro r s res s' h
    rw [requestC] at h
    split at h
    · obtain ⟨rfl, rfl⟩ : Except.error Err.aborted = res ∧ s = s' := by
        simpa using h
      exact Or.inl rfl
    · rename_i hc
      have hlt : s.nextIdx < t := by
        simp [abortsAt] at hc
        omega
      split at h
      · obtain ⟨_, rfl⟩ :
            Except.ok (tr s.nextIdx) = res ∧
              ({ s with calls := s.calls ++ [decorate ts s.storage r],
                        nextIdx := s.nextIdx + 1 } : PState) = s' := by
          simpa using h
        exact Or.inr (by simpa using hlt)
      · split at h
        · split at h
          · simp at h
          · rename_i e s₂ heq
            obtain ⟨rfl, rfl⟩ : Except.error e = res ∧ s₂ = s' := by
              simpa using h
            rcases ih _ _ _ _ heq with he | hle
            · exact Or.inl he
            · exact Or.inr hle
          · rename_i resp₂ s₂ heq
            split at h
            · rcases ih _ _ _ _ h with he | hle
              · exact Or.inl he
              · exact Or.inr hle
            · obtain ⟨rfl, rfl⟩ : Except.error Err.parse = res ∧ s₂ = s' := by
                simpa using h
              rcases ih _ _ _ _ heq with he | hle
              · simp at he
              · exact Or.inr hle
            · obtain ⟨rfl, rfl⟩ : Except.error Err.parse = res ∧ s₂ = s' := by
                simpa using h
              rcases ih _ _ _ _ heq with he | hle
              · simp at he
              · exact Or.inr hle
        · obtain ⟨_, rfl⟩ :
              Except.error (Err.request (decorate ts s.storage r).url) = res ∧
                ({ s with calls := s.calls ++ [decorate ts s.storage r],
                          nextIdx := s.nextIdx + 1 } : PState) = s' := by
            simpa using h
          exact Or.inr (by simpa using hlt)

/-- Non-emptiness of both reads is preserved by any run of updates whose
supplied values are all non-empty. -/
theorem applyUpdates_reads_ne_empty (ts : TokenStore) :
    ∀ l st, (∀ p ∈ l, p.1 ≠ "" ∧ p.2 ≠ "") →
      ts.getToken st ≠ "" → ts.getRefreshToken st ≠ "" →
      ts.getToken (applyUpdates ts st l) ≠ "" ∧
        ts.getRefreshToken (applyUpdates ts st l) ≠ "" := by
  intro l
  induction l with
  | nil =>
    intro st _ h1 h2
    exact ⟨h1, h2⟩
  | cons p rest ih =>
    intro st hl h1 h2
    cases p with
    | mk a b =>
      have ha := (hl (a, b) (List.mem_cons_self _ _)).1
      have hb := (hl (a, b) (List.mem_cons_self _ _)).2
      exact ih _ (fun q hq => hl q (List.mem_cons_of_mem _ hq))
        (by simpa [TokenStore.getToken, TokenStore.updateTokens] using ha)
        (by simpa [TokenStore.getRefreshToken, TokenStore.updateTokens] using hb)

/-- C7: for all strings a and r, `updateTokens(a, r)` followed immediately
by reading both tokens yields exactly the pair (a, r), never a mix of an
old and a new value. -/
theorem c7_update_then_read (ts : TokenStore) (st : Storage) (a r : String) :
    ts.getToken (ts.updateTokens st a r) = a ∧
      ts.getRefreshToken (ts.updateTokens st a r) = r :=
  ⟨rfl, rfl⟩

/-- C8: for every pair of configured defaults, the reads return the
respective default when nothing has been persisted, and after any number
of `updateTokens` calls they return exactly the pair passed to the most
recent call (last-write-wins, read-your-writes). -/
theorem c8_defaults_and_last_write (ts : TokenStore)
    (l : List (String × String)) (st : Storage) (a r : String) :
    ts.getToken { token := none, refreshToken := none } = ts.defaultToken ∧
    ts.getRefreshToken { token := none, refreshToken := none } =
      ts.defaultRefreshToken ∧
    ts.getToken (applyUpdates ts st (l ++ [(a, r)])) = a ∧
    ts.getRefreshToken (applyUpdates ts st (l ++ [(a, r)])) = r := by
  refine ⟨rfl, rfl, ?_, ?_⟩ <;>
    simp [applyUpdates_append, applyUpdates, TokenStore.updateTokens,
      TokenStore.getToken, TokenStore.getRefreshToken]

/-- C10: the reads fall back to the configured default only when no value
at all is stored under the key; a stored empty string is returned as-is,
so after `updateTokens("", "")` both reads return the empty string rather
than the default. -/
theorem c10_stored_empty_string (ts : TokenStore) (st : Storage) (v : String) :
    ts.getToken { st with token := some v } = v ∧
    ts.getRefreshToken { st with refreshToken := some v } = v ∧
    ts.getToken { st with token := none } = ts.defaultToken ∧
    ts.getRefreshToken { st with refreshToken := none } =
      ts.defaultRefreshToken ∧
    ts.getToken (ts.updateTokens st "" "") = "" ∧
    ts.getRefreshToken (ts.updateTokens st "" "") = "" :=
  ⟨rfl, rfl, rfl, rfl, rfl, rfl⟩

/-- C3 counterexample: with the non-empty defaults ("t0", "r0"), a refresh
response that supplies an empty token pair drives the pipeline into a
Token Store state whose access-token read returns the empty string. -/
theorem c3_counterexample :
    Option.map (fun p => ts0.getToken p.2.storage)
      (requestC ts0 trEmptyPair none 3 devicesReq s0) = some "" := by
  decide

/-- C3 (amended): once initialized from non-empty configured defaults,
both reads stay non-empty after any sequence of `updateTokens` calls
whose supplied strings are all non-empty; a refresh response carrying an
empty string breaks the invariant. -/
theorem c3_nonempty_invariant (ts : TokenStore) (l : List (String × String))
    (hd : ts.defaultToken ≠ "") (hdr : ts.defaultRefreshToken ≠ "")
    (hl : ∀ p ∈ l, p.1 ≠ "" ∧ p.2 ≠ "") :
    ts.getToken (applyUpdates ts { token := none, refreshToken := none } l)
      ≠ "" ∧
    ts.getRefreshToken
      (applyUpdates ts { token := none, refreshToken := none } l) ≠ "" :=
  applyUpdates_reads_ne_empty ts l _ hl
    (by simpa [TokenStore.getToken] using hd)
    (by simpa [TokenStore.getRefreshToken] using hdr)

/-- C3 witness: the amended invariant holds concretely for the defaults
("t0", "r0") and one non-empty update. -/
theorem c3_nonempty_invariant_witness :
    ts0.defaultToken ≠ "" ∧ ts0.defaultRefreshToken ≠ "" ∧
    (∀ p ∈ [("a", "b")], p.1 ≠ "" ∧ p.2 ≠ "") ∧
    (ts0.getToken
        (applyUpdates ts0 { token := none, refreshToken := none }
          [("a", "b")]) ≠ "" ∧
      ts0.getRefreshToken
        (applyUpdates ts0 { token := none, refreshToken := none }
          [("a", "b")]) ≠ "") :=
  ⟨by decide, by decide, by decide,
    c3_nonempty_invariant ts0 [("a", "b")] (by decide) (by decide) (by decide)⟩

/-- C5: if the transport answers with a status that is neither 2xx nor
401, the pipeline fails with a RequestError carrying the failing request's
URL, performs exactly one network call (no retry), and leaves the Token
Store unchanged. -/
theorem c5_terminal_error (ts : TokenStore) (tr : Transport) (fuel : Nat)
    (r : Req) (s : PState)
    (hok : (tr s.nextIdx).ok = false) (h401 : (tr s.nextIdx).status ≠ 401) :
    requestC ts tr none (fuel + 1) r s =
      some (Except.error (Err.request r.url),
        { s with calls := s.calls ++ [decorate ts s.storage r],
                 nextIdx := s.nextIdx + 1 }) := by
  rw [requestC]
  simp [abortsAt, hok, h401, decorate]

/-- C5 witness: a 500 response to the devices request fails with the
devices URL after exactly one call. -/
theorem c5_terminal_error_witness :
    (tr500 0).ok = false ∧ (tr500 0).status ≠ 401 ∧
      requestC ts0 tr500 none 1 devicesReq s0 =
        some (Except.error (Err.request devicesReq.url),
          { s0 with calls := s0.calls ++ [decorate ts0 s0.storage devicesReq],
                    nextIdx := s0.nextIdx + 1 }) :=
  ⟨rfl, by decide, c5_terminal_error ts0 tr500 0 devicesReq s0 rfl (by decide)⟩

/-- C1: on a 401 to the first call, a 2xx refresh response holding a token
pair, and a 2xx retried call, the pipeline performs exactly 3 network
calls in order — original (401), POST to the token endpoint, retried
original — and the Token Store holds the refreshed pair when the third
call's Authorization header is built (the header carries the new access
token); `fetchActiveDevices` then returns the parsed device list. -/
theorem c1_refresh_retry_three_calls (ts : TokenStore) (tr : Transport)
    (r : Req) (st : Storage) (fuel : Nat) (b0 : RespBody) (n1 n2 : Nat)
    (tk rtk : String) (ds : List Device)
    (h0 : tr 0 = { ok := false, status := 401, body := b0 })
    (h1 : tr 1 = { ok := true, status := n1, body := RespBody.tokens tk rtk })
    (h2 : tr 2 = { ok := true, status := n2, body := RespBody.devices ds }) :
    requestC ts tr none (fuel + 2) r
        { storage := st, calls := [], nextIdx := 0 } =
      some (Except.ok { ok := true, status := n2, body := RespBody.devices ds },
        { storage := { token := some tk, refreshToken := some rtk },
          calls := [decorate ts st r,
            decorate ts st (mkRefreshReq (ts.getRefreshToken st)),
            decorate ts { token := some tk, refreshToken := some rtk } r],
          nextIdx := 3 }) ∧
    (decorate ts { token := some tk, refreshToken := some rtk } r).authorization
      = some ("Bearer " ++ tk) ∧
    fetchActiveDevices ts tr none (fuel + 2)
        { storage := st, calls := [], nextIdx := 0 } =
      some (Except.ok ds,
        { storage := { token := some tk, refreshToken := some rtk },
          calls := [decorate ts st devicesReq,
            decorate ts st (mkRefreshReq (ts.getRefreshToken st)),
            decorate ts { token := some tk, refreshToken := some rtk }
              devicesReq],
          nextIdx := 3 }) := by
  refine ⟨?_, ?_, ?_⟩
  · simp [requestC, abortsAt, h0, h1, h2, decorate,
      TokenStore.getToken, TokenStore.updateTokens]
  · simp [decorate, TokenStore.getToken]
  · simp [fetchActiveDevices, requestC, abortsAt, h0, h1, h2, decorate,
      TokenStore.getToken, TokenStore.updateTokens]

/-- C1 witness: the spec's concrete scenario — defaults ("t0", "r0"),
first call 401, refresh returning ("11", "22"), retried list call
returning one device. -/
theorem c1_refresh_retry_three_calls_witness :
    trScenario 0 = { ok := false, status := 401, body := RespBody.empty } ∧
    trScenario 1 =
      { ok := true, status := 200, body := RespBody.tokens "11" "22" } ∧
    trScenario 2 =
      { ok := true, status := 200,
        body := RespBody.devices [{ id := 123, name := "macOS" }] } ∧
    (requestC ts0 trScenario none (0 + 2) devicesReq
        { storage := { token := none, refreshToken := none }, calls := [],
          nextIdx := 0 } =
      some (Except.ok
          { ok := true, status := 200,
            body := RespBody.devices [{ id := 123, name := "macOS" }] },
        { storage := { token := some "11", refreshToken := some "22" },
          calls := [decorate ts0 { token := none, refreshToken := none }
              devicesReq,
            decorate ts0 { token := none, refreshToken := none }
              (mkRefreshReq (ts0.getRefreshToken
                { token := none, refreshToken := none })),
            decorate ts0 { token := some "11", refreshToken := some "22" }
              devicesReq],
          nextIdx := 3 }) ∧
    (decorate ts0 { token := some "11", refreshToken := some "22" }
        devicesReq).authorization = some ("Bearer " ++ "11") ∧
    fetchActiveDevices ts0 trScenario none (0 + 2)
        { storage := { token := none, refreshToken := none }, calls := [],
          nextIdx := 0 } =
      some (Except.ok [{ id := 123, name := "macOS" }],
        { storage := { token := some "11", refreshToken := some "22" },
          calls := [decorate ts0 { token := none, refreshToken := none }
              devicesReq,
            decorate ts0 { token := none, refreshToken := none }
              (mkRefreshReq (ts0.getRefreshToken
                { token := none, refreshToken := none })),
            decorate ts0 { token := some "11", refreshToken := some "22" }
              devicesReq],
          nextIdx := 3 })) :=
  ⟨by decide, by decide, by decide,
    c1_refresh_retry_three_calls ts0 trScenario devicesReq
      { token := none, refreshToken := none } 0 RespBody.empty 200 200
      "11" "22" [{ id := 123, name := "macOS" }]
      (by decide) (by decide) (by decide)⟩

/-- C2: the inline pipeline nested in `main` and the class-based pipeline
are not observationally equivalent: on a 401 followed by a successful
refresh, the class pipeline retries the original devices request, while
the inline pipeline — whose `const req` holding the refresh request
shadows the function's `req` parameter — retries the token request, so the
two issue different third calls. -/
theorem c2_inline_retries_token_request :
    Option.map (fun p => p.2.calls.map (fun c => c.url))
        (requestC ts0 trScenario none 3 devicesReq s0) =
      some [devicesUrl, tokenUrl, devicesUrl] ∧
    Option.map (fun p => p.2.calls.map (fun c => c.url))
        (requestI ts0 trScenario 3 devicesReq s0) =
      some [devicesUrl, tokenUrl, tokenUrl] ∧
    devicesUrl ≠ tokenUrl := by
  decide

/-- C6: whenever a 401 triggers the refresh sub-protocol, the very next
network call is the refresh request — a POST to the token endpoint with
body consisting of the current refresh token — executed through the same
pipeline, so it carries an Authorization header built from the current,
possibly stale, access token read from the Token Store at that moment. -/
theorem c6_refresh_through_pipeline (ts : TokenStore) (tr : Transport)
    (fuel : Nat) (r : Req) (s : PState) (res : Except Err Resp) (s' : PState)
    (hok : (tr s.nextIdx).ok = false) (h401 : (tr s.nextIdx).status = 401)
    (hrun : requestC ts tr none (fuel + 1) r s = some (res, s')) :
    s'.calls.take (s.calls.length + 2) =
      s.calls ++ [decorate ts s.storage r,
        decorate ts s.storage (mkRefreshReq (ts.getRefreshToken s.storage))] ∧
    (mkRefreshReq (ts.getRefreshToken s.storage)).method = Method.POST ∧
    (mkRefreshReq (ts.getRefreshToken s.storage)).url = tokenUrl ∧
    (mkRefreshReq (ts.getRefreshToken s.storage)).body =
      some (refreshBody (ts.getRefreshToken s.storage)) ∧
    (decorate ts s.storage
        (mkRefreshReq (ts.getRefreshToken s.storage))).authorization =
      some ("Bearer " ++ ts.getToken s.storage) := by
  refine ⟨?_, rfl, rfl, rfl, rfl⟩
  suffices hsuf : ∃ rest, s'.calls =
      (s.calls ++ [decorate ts s.storage r,
        decorate ts s.storage
          (mkRefreshReq (ts.getRefreshToken s.storage))]) ++ rest by
    obtain ⟨rest, hrest⟩ := hsuf
    have hlen : (s.calls ++ [decorate ts s.storage r,
        decorate ts s.storage
          (mkRefreshReq (ts.getRefreshToken s.storage))]).length =
        s.calls.length + 2 := by simp
    rw [hrest, ← hlen, take_len_append]
  rw [requestC] at hrun
  rw [if_neg (by simp [abortsAt])] at hrun
  rw [if_neg (by simp [hok])] at hrun
  rw [if_pos h401] at hrun
  cases fuel with
  | zero => simp [requestC] at hrun
  | succ f =>
    cases hq : requestC ts tr none (f + 1)
        (mkRefreshReq (ts.getRefreshToken s.storage))
        { s with calls := s.calls ++ [decorate ts s.storage r],
                 nextIdx := s.nextIdx + 1 } with
    | none => rw [hq] at hrun; simp at hrun
    | some p =>
      obtain ⟨res₁, s₂⟩ := p
      rw [hq] at hrun
      obtain ⟨l, hl⟩ := requestC_first_call ts tr f
        (mkRefreshReq (ts.getRefreshToken s.storage)) _ res₁ s₂ hq
      simp only at hl
      cases res₁ with
      | error e =>
        obtain ⟨rfl, rfl⟩ : Except.error e = res ∧ s₂ = s' := by
          simpa using hrun
        exact ⟨l, by simp [hl]⟩
      | ok resp₂ =>
        simp only [] at hrun
        cases hb : resp₂.body with
        | tokens tk rtk =>
          rw [hb] at hrun
          simp only [] at hrun
          obtain ⟨l₂, hl₂⟩ :=
            requestC_calls_append ts tr none _ _ _ _ _ hrun
          simp only at hl₂
          exact ⟨l ++ l₂, by simp [hl₂, hl]⟩
        | devices ds =>
          rw [hb] at hrun
          obtain ⟨rfl, rfl⟩ : Except.error Err.parse = res ∧ s₂ = s' := by
            simpa using hrun
          exact ⟨l, by simp [hl]⟩
        | empty =>
          rw [hb] at hrun
          obtain ⟨rfl, rfl⟩ : Except.error Err.parse = res ∧ s₂ = s' := by
            simpa using hrun
          exact ⟨l, by simp [hl]⟩

/-- C6 witness: in the concrete scenario the second call of the finished
run is the decorated refresh request. -/
theorem c6_refresh_through_pipeline_witness :
    (trScenario 0).ok = false ∧ (trScenario 0).status = 401 ∧
    requestC ts0 trScenario none (1 + 1) devicesReq s0 =
      some (Except.ok
          { ok := true, status := 200,
            body := RespBody.devices [{ id := 123, name := "macOS" }] },
        { storage := { token := some "11", refreshToken := some "22" },
          calls := [decorate ts0 s0.storage devicesReq,
            decorate ts0 s0.storage
              (mkRefreshReq (ts0.getRefreshToken s0.storage)),
            decorate ts0 { token := some "11", refreshToken := some "22" }
              devicesReq],
          nextIdx := 3 }) ∧
    (({ storage := { token := some "11", refreshToken := some "22" },
        calls := [decorate ts0 s0.storage devicesReq,
          decorate ts0 s0.storage
            (mkRefreshReq (ts0.getRefreshToken s0.storage)),
          decorate ts0 { token := some "11", refreshToken := some "22" }
            devicesReq],
        nextIdx := 3 } : PState).calls.take (s0.calls.length + 2) =
      s0.calls ++ [decorate ts0 s0.storage devicesReq,
        decorate ts0 s0.storage
          (mkRefreshReq (ts0.getRefreshToken s0.storage))] ∧
    (mkRefreshReq (ts0.getRefreshToken s0.storage)).method = Method.POST ∧
    (mkRefreshReq (ts0.getRefreshToken s0.storage)).url = tokenUrl ∧
    (mkRefreshReq (ts0.getRefreshToken s0.storage)).body =
      some (refreshBody (ts0.getRefreshToken s0.storage)) ∧
    (decorate ts0 s0.storage
        (mkRefreshReq (ts0.getRefreshToken s0.storage))).authorization =
      some ("Bearer " ++ ts0.getToken s0.storage)) :=
  ⟨rfl, rfl, by decide,
    c6_refresh_through_pipeline ts0 trScenario 1 devicesReq s0
      (Except.ok
        { ok := true, status := 200,
          body := RespBody.devices [{ id := 123, name := "macOS" }] })
      { storage := { token := some "11", refreshToken := some "22" },
        calls := [decorate ts0 s0.storage devicesReq,
          decorate ts0 s0.storage
            (mkRefreshReq (ts0.getRefreshToken s0.storage)),
          decorate ts0 { token := some "11", refreshToken := some "22" }
            devicesReq],
        nextIdx := 3 }
      rfl rfl (by decide)⟩

/-- Against a transport that answers 401 to every call, the pipeline
exhausts any fuel bound: the recursion never terminates. -/
theorem requestC_always401_diverges (ts : TokenStore) (tr : Transport)
    (h : ∀ i, (tr i).ok = false ∧ (tr i).status = 401) :
    ∀ fuel r s, requestC ts tr none fuel r s = none := by
  intro fuel
  induction fuel with
  | zero => intro r s; rfl
  | succ n ih =>
    intro r s
    rw [requestC]
    rw [if_neg (by simp [abortsAt])]
    rw [if_neg (by simp [(h s.nextIdx).1])]
    rw [if_pos (h s.nextIdx).2]
    rw [ih]

/-- If the transport stops answering 401 from call index `N` on, the
pipeline terminates once given fuel covering the remaining distance:
every recursive call strictly advances the call index. -/
theorem requestC_terminates (ts : TokenStore) (tr : Transport) (N : Nat)
    (hN : ∀ i, N ≤ i → (tr i).status ≠ 401) :
    ∀ fuel r s, N ≤ s.nextIdx + fuel →
      requestC ts tr none (fuel + 1) r s ≠ none := by
  intro fuel
  induction fuel with
  | zero =>
    intro r s hle
    rw [requestC]
    rw [if_neg (by simp [abortsAt])]
    by_cases hok : (tr s.nextIdx).ok
    · rw [if_pos hok]
      simp
    · rw [if_neg hok]
      rw [if_neg (hN s.nextIdx (by omega))]
      simp
  | succ f ih =>
    intro r s hle
    rw [requestC]
    rw [if_neg (by simp [abortsAt])]
    by_cases hok : (tr s.nextIdx).ok
    · rw [if_pos hok]
      simp
    · rw [if_neg hok]
      by_cases h401 : (tr s.nextIdx).status = 401
      · rw [if_pos h401]
        cases hq : requestC ts tr none (f + 1)
            (mkRefreshReq (ts.getRefreshToken s.storage))
            { s with calls := s.calls ++ [decorate ts s.storage r],
                     nextIdx := s.nextIdx + 1 } with
        | none =>
          exact absurd hq (ih _ _ (by show N ≤ s.nextIdx + 1 + f; omega))
        | some p =>
          obtain ⟨res₁, s₂⟩ := p
          cases res₁ with
          | error e => simp
          | ok resp₂ =>
            have hlt := requestC_nextIdx_lt ts tr _ _ _ _ _ hq
            simp only at hlt
            simp only []
            cases hb : resp₂.body with
            | tokens tk rtk =>
              simp only []
              exact ih _ _ (by show N ≤ s₂.nextIdx + f; omega)
            | devices ds => simp
            | empty => simp
      · rw [if_neg h401]
        simp

/-- C4 counterexample: against the alternating transport — 401 on every
even call, success on every odd call, so every run of consecutive 401s
has length exactly one — the pipeline still never terminates: every
retried original request is answered 401 again. -/
theorem c4_counterexample :
    divergesFrom ts0 trAlternating none devicesReq s0 := by
  suffices h : ∀ fuel r s, s.nextIdx % 2 = 0 →
      requestC ts0 trAlternating none fuel r s = none by
    intro fuel
    exact h fuel devicesReq s0 rfl
  intro fuel
  induction fuel with
  | zero => intro r s _; rfl
  | succ n ih =>
    intro r s hs
    have h0 : trAlternating s.nextIdx =
        { ok := false, status := 401, body := RespBody.empty } := by
      simp [trAlternating, hs]
    rw [requestC]
    rw [if_neg (by simp [abortsAt])]
    rw [if_neg (by simp [h0])]
    rw [if_pos (by simp [h0])]
    cases n with
    | zero => rfl
    | succ m =>
      have h1 : trAlternating (s.nextIdx + 1) =
          { ok := true, status := 200, body := RespBody.tokens "t1" "r1" } := by
        have hmod : (s.nextIdx + 1) % 2 = 1 := by omega
        simp [trAlternating, hmod]
      rw [requestC]
      simp only [abortsAt, h1]
      exact ih _ _ (by simp only; omega)

/-- C4 (amended): the pipeline recurses unconditionally on every 401 with
no depth limit — against an always-401 transport it never terminates; it
does terminate whenever the transport answers 401 only finitely often in
total (no 401 from some call index on), but finitely many *consecutive*
401s do not suffice (see the counterexample). -/
theorem c4_unbounded_recursion (ts : TokenStore) :
    (∀ tr r s, (∀ i, (tr i).ok = false ∧ (tr i).status = 401) →
      divergesFrom ts tr none r s) ∧
    (∀ tr N, (∀ i, N ≤ i → (tr i).status ≠ 401) →
      ∀ fuel r s, N ≤ s.nextIdx + fuel →
        requestC ts tr none (fuel + 1) r s ≠ none) :=
  ⟨fun tr r s h fuel => requestC_always401_diverges ts tr h fuel r s,
    fun tr N hN fuel r s hle => requestC_terminates ts tr N hN fuel r s hle⟩

/-- C4 witness: the always-401 transport exhausts fuel 5, while a 401-free
transport finishes on fuel 1. -/
theorem c4_unbounded_recursion_witness :
    requestC ts0 trAlways401 none 5 devicesReq s0 = none ∧
      requestC ts0 trAllOk none (0 + 1) devicesReq s0 ≠ none :=
  ⟨(c4_unbounded_recursion ts0).1 trAlways401 devicesReq s0
      (fun _ => ⟨rfl, rfl⟩) 5,
    (c4_unbounded_recursion ts0).2 trAllOk 0 (fun _ _ => by simp [trAllOk])
      0 devicesReq s0 (by decide)⟩

/-- A call started when the abort signal has already fired fails at once
with the abortion error and makes no network call. -/
theorem requestC_aborted_start (ts : TokenStore) (tr : Transport) (t : Nat)
    (fuel : Nat) (r : Req) (s : PState) (h : t ≤ s.nextIdx) :
    requestC ts tr (some t) (fuel + 1) r s =
      some (Except.error Err.aborted, s) := by
  rw [requestC]
  rw [if_pos (by simp [abortsAt, h])]

/-- The abort-cases disjunction lifted to `fetchActiveDevices`. -/
theorem fetchActiveDevices_abort_cases (ts : TokenStore) (tr : Transport)
    (t fuel : Nat) (s : PState) (res : Except Err (List Device)) (s' : PState)
    (h : fetchActiveDevices ts tr (some t) fuel s = some (res, s')) :
    res = Except.error Err.aborted ∨ s'.nextIdx ≤ t := by
  unfold fetchActiveDevices at h
  cases hq : requestC ts tr (some t) fuel devicesReq s with
  | none => rw [hq] at h; simp at h
  | some p =>
    obtain ⟨res₀, s₂⟩ := p
    rw [hq] at h
    have hc := requestC_abort_cases ts tr t fuel devicesReq s res₀ s₂ hq
    cases res₀ with
    | error e =>
      obtain ⟨rfl, rfl⟩ : Except.error e = res ∧ s₂ = s' := by simpa using h
      rcases hc with he | hle
      · obtain rfl : e = Err.aborted := by simpa using he
        exact Or.inl rfl
      · exact Or.inr hle
    | ok resp =>
      rcases hc with he | hle
      · simp at he
      · simp only [] at h
        cases hb : resp.body with
        | tokens tk rtk =>
          rw [hb] at h
          obtain ⟨rfl, rfl⟩ : Except.error Err.parse = res ∧ s₂ = s' := by
            simpa using h
          exact Or.inr hle
        | devices ds =>
          rw [hb] at h
          obtain ⟨rfl, rfl⟩ : Except.ok ds = res ∧ s₂ = s' := by
            simpa using h
          exact Or.inr hle
        | empty =>
          rw [hb] at h
          obtain ⟨rfl, rfl⟩ : Except.error Err.parse = res ∧ s₂ = s' := by
            simpa using h
          exact Or.inr hle

/-- The abort-cases disjunction lifted to `disconnectDeviceById`. -/
theorem disconnectDeviceById_abort_cases (ts : TokenStore) (tr : Transport)
    (t fuel did : Nat) (s : PState) (res : Except Err Unit) (s' : PState)
    (h : disconnectDeviceById ts tr (some t) fuel did s = some (res, s')) :
    res = Except.error Err.aborted ∨ s'.nextIdx ≤ t := by
  unfold disconnectDeviceById at h
  cases hq : requestC ts tr (some t) fuel (deleteDeviceReq did) s with
  | none => rw [hq] at h; simp at h
  | some p =>
    obtain ⟨res₀, s₂⟩ := p
    rw [hq] at h
    have hc := requestC_abort_cases ts tr t fuel (deleteDeviceReq did) s
      res₀ s₂ hq
    cases res₀ with
    | error e =>
      obtain ⟨rfl, rfl⟩ : Except.error e = res ∧ s₂ = s' := by simpa using h
      rcases hc with he | hle
      · obtain rfl : e = Err.aborted := by simpa using he
        exact Or.inl rfl
      · exact Or.inr hle
    | ok resp =>
      rcases hc with he | hle
      · simp at he
      · obtain ⟨rfl, rfl⟩ : Except.ok () = res ∧ s₂ = s' := by simpa using h
        exact Or.inr hle

/-- C9: after `dispose()` has fired the shared signal, every
`fetchActiveDevices` or `disconnectDeviceById` call started afterwards
fails with the abortion error; a call overlapping the disposal either
completed all its network calls before the signal fired or fails with the
abortion error rather than completing; and calling `dispose` again has no
further effect. -/
theorem c9_dispose_aborts (ts : TokenStore) (tr : Transport) (t : Nat)
    (s : PState) (a : Option Nat) (n n' fuel did : Nat) :
    dispose (dispose a n) n' = dispose a n ∧
    (t ≤ s.nextIdx →
      fetchActiveDevices ts tr (some t) (fuel + 1) s =
        some (Except.error Err.aborted, s) ∧
      disconnectDeviceById ts tr (some t) (fuel + 1) did s =
        some (Except.error Err.aborted, s)) ∧
    (∀ res s', fetchActiveDevices ts tr (some t) fuel s = some (res, s') →
      res = Except.error Err.aborted ∨ s'.nextIdx ≤ t) ∧
    (∀ res s', disconnectDeviceById ts tr (some t) fuel did s =
        some (res, s') →
      res = Except.error Err.aborted ∨ s'.nextIdx ≤ t) := by
  refine ⟨?_, ?_, ?_, ?_⟩
  · cases a <;> rfl
  · intro ht
    constructor
    · unfold fetchActiveDevices
      rw [requestC_aborted_start ts tr t fuel devicesReq s ht]
    · unfold disconnectDeviceById
      rw [requestC_aborted_start ts tr t fuel (deleteDeviceReq did) s ht]
  · intro res s' h
    exact fetchActiveDevices_abort_cases ts tr t fuel s res s' h
  · intro res s' h
    exact disconnectDeviceById_abort_cases ts tr t fuel did s res s' h

/-- C9 witness: with the signal already fired both operations fail
aborted; with the signal firing only at call index 5 a one-call fetch
completes with all its calls before the signal. -/
theorem c9_dispose_aborts_witness :
    dispose (dispose none 1) 2 = dispose none 1 ∧
    fetchActiveDevices ts0 trAllOk (some 0) (0 + 1) s0 =
      some (Except.error Err.aborted, s0) ∧
    disconnectDeviceById ts0 trAllOk (some 0) (0 + 1) 7 s0 =
      some (Except.error Err.aborted, s0) ∧
    ((Except.ok [{ id := 123, name := "macOS" }] :
        Except Err (List Device)) = Except.error Err.aborted ∨
      ({ storage := { token := none, refreshToken := none },
         calls := [decorate ts0
           { token := none, refreshToken := none } devicesReq],
         nextIdx := 1 } : PState).nextIdx ≤ 5) :=
  ⟨(c9_dispose_aborts ts0 trAllOk 0 s0 none 1 2 0 7).1,
    ((c9_dispose_aborts ts0 trAllOk 0 s0 none 1 2 0 7).2.1 (by decide)).1,
    ((c9_dispose_aborts ts0 trAllOk 0 s0 none 1 2 0 7).2.1 (by decide)).2,
    (c9_dispose_aborts ts0 trAllOk 5 s0 none 1 2 1 7).2.2.1
      (Except.ok [{ id := 123, name := "macOS" }])
      { storage := { token := none, refreshToken := none },
        calls := [decorate ts0
          { token := none, refreshToken := none } devicesReq],
        nextIdx := 1 }
      (by decide)⟩

end Setapp
